import Mathlib

/-! Verification of the location-resolver and proximity-search core of the
kasih-map-finder store-locator application.

Part 1 models the location resolver of src/utils/geoUtils.ts
(getLocationFromIP, getCurrentPosition, getLocationWithFallback) as pure
functions over rational coordinates.  Network and sensor effects are made
explicit: each IP-geolocation service call is represented by an
`Option IpPayload` (`none` is a failed fetch, a non-ok response or a JSON
parse error), and the device sensor by an `Option GpsCoords` inside a
`GeoEnv`.  Part 2 (further below) models the proximity search engine
(calculateDistance, sortMerchantsByDistance) over the reals. -/

namespace KasihMap

/-- JSON value occurring in an IP-geolocation provider payload.  The
providers used by the app return numbers or strings in the coordinate
fields; `null` stands for an explicit JSON null. -/
inductive JsonVal where
  | num (q : ℚ)
  | str (s : String)
  | null
deriving DecidableEq

/-- JavaScript truthiness of an optional payload field: `undefined`
(absent field), `null`, the number `0` and the empty string are falsy,
every other number or string is truthy.  This is the test applied by
`if (data.latitude && data.longitude)` in getLocationFromIP. -/
def truthy : Option JsonVal → Bool
  | none => false
  | some JsonVal.null => false
  | some (JsonVal.num q) => decide (q ≠ 0)
  | some (JsonVal.str s) => decide (s ≠ "")

/-- Model of JavaScript parseFloat on the simple decimal strings produced
by the IP-geolocation providers: an optional sign followed by integer
digits and an optional fraction part.  Any other form is treated as NaN
and modelled as `none`.  (Prefix parsing of trailing garbage and exponent
notation are not needed for the provider payload shapes.) -/
def parseDecimal (s : String) : Option ℚ :=
  let body :=
    fun (t : String) (sgn : ℚ) =>
      match t.splitOn "." with
      | [ipart] => (ipart.toNat?).map (fun n => sgn * (n : ℚ))
      | [ipart, fpart] =>
        match ipart.toNat?, fpart.toNat? with
        | some n, some f => some (sgn * ((n : ℚ) + (f : ℚ) / (10 : ℚ) ^ fpart.length))
        | _, _ => none
      | _ => none
  if s.startsWith "-" then body (s.drop 1) (-1)
  else if s.startsWith "+" then body (s.drop 1) 1
  else body s 1

/-- JavaScript parseFloat applied to an optional JSON field, as in
`parseFloat(data.latitude)`: numbers parse to themselves, strings through
`parseDecimal`, and `null` or an absent field give NaN (`none`). -/
def parseFloat : Option JsonVal → Option ℚ
  | some (JsonVal.num q) => some q
  | some (JsonVal.str s) => parseDecimal s
  | some JsonVal.null => none
  | none => none

/-- The coordinate-bearing fields of an IP-geolocation provider response,
as probed by getLocationFromIP: `latitude`/`longitude`, `lat`/`lon`, or a
combined `loc` field.  `none` is an absent field. -/
structure IpPayload where
  latitude : Option JsonVal
  longitude : Option JsonVal
  lat : Option JsonVal
  lon : Option JsonVal
  loc : Option JsonVal
deriving DecidableEq

/-- The coordinate-extraction logic of getLocationFromIP for one provider
response (geoUtils.ts lines 495-517): probe `latitude`/`longitude`, then
`lat`/`lon`, then `loc` (a "lat,lng" string split on the comma); a truthy
`loc` that is not a string makes `data.loc.split` throw, which the inner
catch turns into a provider failure.  The provider is accepted only when
the chosen branch parses both components to non-NaN numbers; there is no
fall-through from a chosen branch to a later one. -/
def extractCoords (data : IpPayload) : Option (ℚ × ℚ) :=
  let pair : Option ℚ × Option ℚ :=
    if truthy data.latitude && truthy data.longitude then
      (parseFloat data.latitude, parseFloat data.longitude)
    else if truthy data.lat && truthy data.lon then
      (parseFloat data.lat, parseFloat data.lon)
    else if truthy data.loc then
      match data.loc with
      | some (JsonVal.str s) =>
        match s.splitOn "," with
        | latStr :: lngStr :: _ => (parseDecimal latStr, parseDecimal lngStr)
        | [latStr] => (parseDecimal latStr, none)
        | [] => (none, none)
      | _ => (none, none)
    else (none, none)
  match pair with
  | (some la, some lo) => some (la, lo)
  | _ => none

/-- The result shape of getLocationFromIP: a coordinate plus the fixed
50000 m accuracy attributed to IP geolocation. -/
structure IpLocation where
  lat : ℚ
  lng : ℚ
  accuracy : ℚ
deriving DecidableEq

/-- getLocationFromIP (geoUtils.ts lines 473-530): try the services in
order, return the first response from which a coordinate is extracted
(always with accuracy 50000); if all services fail the promise rejects,
modelled as `none`. -/
def getLocationFromIP : List (Option IpPayload) → Option IpLocation
  | [] => none
  | none :: rest => getLocationFromIP rest
  | some data :: rest =>
    match extractCoords data with
    | some (la, lo) => some ⟨la, lo, 50000⟩
    | none => getLocationFromIP rest

/-- The coordinate fields of a GeolocationPosition relevant to the
resolver (the altitude, heading and speed fields are always null in the
mock positions and never read). -/
structure GpsCoords where
  latitude : ℚ
  longitude : ℚ
  accuracy : ℚ
deriving DecidableEq

/-- One resolution attempt of the environment: whether
navigator.geolocation exists, the sensor outcome (`none` is the error
callback, for PERMISSION_DENIED, POSITION_UNAVAILABLE or TIMEOUT), and
the fixed responses of the five IP-geolocation services for this
attempt. -/
structure GeoEnv where
  geolocationSupported : Bool
  sensor : Option GpsCoords
  providers : List (Option IpPayload)

/-- getCurrentPosition (geoUtils.ts lines 535-595): when geolocation is
unsupported, fall back to IP and resolve a mock GeolocationPosition (or
reject if IP fails); otherwise use the sensor, and on a sensor error fall
back to IP and resolve a mock position, rejecting only when the IP
fallback also fails. -/
def getCurrentPosition (env : GeoEnv) : Option GpsCoords :=
  if env.geolocationSupported = false then
    match getLocationFromIP env.providers with
    | some ip => some ⟨ip.lat, ip.lng, ip.accuracy⟩
    | none => none
  else
    match env.sensor with
    | some pos => some pos
    | none =>
      match getLocationFromIP env.providers with
      | some ip => some ⟨ip.lat, ip.lng, ip.accuracy⟩
      | none => none

/-- How a resolved location was obtained, as tagged by
getLocationWithFallback. -/
inductive LocMethod where
  | gps
  | ip
deriving DecidableEq

/-- The value resolved by getLocationWithFallback.  The isInAppBrowser
field of the source (a pass-through of the user-agent sniffing helper
detectInAppBrowser, consumed only by the UI) is omitted. -/
structure FallbackLocation where
  lat : ℚ
  lng : ℚ
  accuracy : ℚ
  method : LocMethod
deriving DecidableEq

/-- getLocationWithFallback (geoUtils.ts lines 600-637): await
getCurrentPosition and tag any position it resolves with method gps; only
when getCurrentPosition rejects, call getLocationFromIP directly and tag
its result with method ip; throw (here `none`) when that also fails.
Within one attempt the provider responses are fixed, so the second
getLocationFromIP call sees the same outcomes as the one inside
getCurrentPosition. -/
def getLocationWithFallback (env : GeoEnv) : Option FallbackLocation :=
  match getCurrentPosition env with
  | some pos => some ⟨pos.latitude, pos.longitude, pos.accuracy, LocMethod.gps⟩
  | none =>
    match getLocationFromIP env.providers with
    | some ip => some ⟨ip.lat, ip.lng, ip.accuracy, LocMethod.ip⟩
    | none => none

/-- Exhaustion lemma for the provider loop: getLocationFromIP fails
exactly when every service response is a fetch failure or a payload from
which no coordinate can be extracted. -/
theorem getLocationFromIP_eq_none_iff (rs : List (Option IpPayload)) :
    getLocationFromIP rs = none ↔
      ∀ r ∈ rs, ∀ d, r = some d → extractCoords d = none := by
  induction rs with
  | nil => simp [getLocationFromIP]
  | cons r rest ih =>
    cases r with
    | none => simp [getLocationFromIP, ih]
    | some d =>
      cases hd : extractCoords d with
      | none => simp [getLocationFromIP, hd, ih]
      | some v => simp [getLocationFromIP, hd]

/-- A provider payload carrying the out-of-range coordinate (200, 300). -/
def payloadOutOfRange : IpPayload :=
  ⟨some (JsonVal.num 200), some (JsonVal.num 300), none, none, none⟩

/-- Claim C2 counterexample: getLocationFromIP parses the coordinate
(200, 300) from a provider payload, with latitude far outside [-90, 90]
and longitude outside [-180, 180], and returns it as the resolved
location instead of rejecting it and moving to the next provider. -/
theorem outOfRange_coordinate_returned :
    getLocationFromIP [some payloadOutOfRange] = some ⟨200, 300, 50000⟩ ∧
      ¬ ((200 : ℚ) ≤ 90) ∧ ¬ ((300 : ℚ) ≤ 180) :=
  ⟨rfl, by decide, by decide⟩

/-- Claim C2 as amended: getLocationFromIP performs no latitude or
longitude range validation; the first provider payload from which a
coordinate is parsed is returned as the resolved location even when that
coordinate is outside the valid ranges. -/
theorem getLocationFromIP_no_range_check (p : IpPayload)
    (rest : List (Option IpPayload)) (la lo : ℚ)
    (h : extractCoords p = some (la, lo))
    (hout : la < -90 ∨ 90 < la ∨ lo < -180 ∨ 180 < lo) :
    getLocationFromIP (some p :: rest) = some ⟨la, lo, 50000⟩ := by
  simp [getLocationFromIP, h]

/-- Witness for getLocationFromIP_no_range_check at the concrete payload
(200, 300). -/
theorem getLocationFromIP_no_range_check_witness :
    getLocationFromIP [some payloadOutOfRange] = some ⟨200, 300, 50000⟩ :=
  getLocationFromIP_no_range_check payloadOutOfRange [] 200 300 rfl
    (Or.inr (Or.inl (by decide)))

/-- A valid provider payload in the latitude/longitude shape, near Kuala
Lumpur. -/
def payloadKualaLumpur : IpPayload :=
  ⟨some (JsonVal.num 3.139), some (JsonVal.num 101.6869), none, none, none⟩

/-- The C1 scenario: geolocation is supported but the sensor request is
rejected (for example PERMISSION_DENIED), and exactly one of the five IP
services returns a valid payload. -/
def envGpsDeniedIpOk : GeoEnv :=
  ⟨true, none, [some payloadKualaLumpur, none, none, none, none]⟩

/-- Claim C1: when the sensor fails and an IP provider returns a
parseable coordinate, the resolver yields that coordinate with accuracy
50000 but tags it method gps, not method ip as specified: the IP fallback
inside getCurrentPosition resolves a mock GeolocationPosition, so the
try-branch of getLocationWithFallback succeeds and applies its gps tag,
and the branch that would tag method ip is unreachable in this
scenario. -/
theorem gpsDenied_ipSuccess_tagged_gps :
    getLocationWithFallback envGpsDeniedIpOk =
        some ⟨3.139, 101.6869, 50000, LocMethod.gps⟩ ∧
      LocMethod.gps ≠ LocMethod.ip := by
  refine ⟨?_, by decide⟩
  have h1 : (3.139 : ℚ) ≠ 0 := by norm_num
  have h2 : (101.6869 : ℚ) ≠ 0 := by norm_num
  simp [getLocationWithFallback, getCurrentPosition, getLocationFromIP,
    extractCoords, truthy, parseFloat, envGpsDeniedIpOk, payloadKualaLumpur,
    h1, h2]

/-- Claim C6: the resolver surfaces an error to its caller exactly when
the sensor strategy fails (geolocation unsupported or the sensor request
errors) and every IP provider fails to yield a parseable coordinate. -/
theorem getLocationWithFallback_none_iff (env : GeoEnv) :
    getLocationWithFallback env = none ↔
      ((env.geolocationSupported = false ∨ env.sensor = none) ∧
        ∀ r ∈ env.providers, ∀ d, r = some d → extractCoords d = none) := by
  obtain ⟨sup, sens, provs⟩ := env
  rw [← getLocationFromIP_eq_none_iff]
  cases sup with
  | false =>
    cases h : getLocationFromIP provs with
    | none => simp [getLocationWithFallback, getCurrentPosition, h]
    | some ip => simp [getLocationWithFallback, getCurrentPosition, h]
  | true =>
    cases sens with
    | some pos => simp [getLocationWithFallback, getCurrentPosition]
    | none =>
      cases h : getLocationFromIP provs with
      | none => simp [getLocationWithFallback, getCurrentPosition, h]
      | some ip => simp [getLocationWithFallback, getCurrentPosition, h]

/-- Claim C10: a payload whose latitude or longitude field is the number
0 fails the JavaScript truthiness test of the latitude/longitude branch,
so when the payload carries no lat/lon or loc fields it is treated as
unparseable and the provider is skipped. -/
theorem zero_coordinate_payload_skipped (d : IpPayload)
    (hlat : d.lat = none) (hlon : d.lon = none) (hloc : d.loc = none)
    (h0 : d.latitude = some (JsonVal.num 0) ∨
      d.longitude = some (JsonVal.num 0)) :
    extractCoords d = none := by
  obtain ⟨dla, dlo, dl1, dl2, dl3⟩ := d
  simp only at hlat hlon hloc
  subst hlat; subst hlon; subst hloc
  rcases h0 with h | h <;> simp only at h <;> subst h <;>
    simp [extractCoords, truthy]

/-- The C10 payload: latitude 0 (on the equator), longitude 103.7, no
other coordinate fields. -/
def payloadEquator : IpPayload :=
  ⟨some (JsonVal.num 0), some (JsonVal.num 103.7), none, none, none⟩

/-- Witness for zero_coordinate_payload_skipped at the concrete payload
with latitude 0 and longitude 103.7. -/
theorem zero_coordinate_payload_skipped_witness :
    extractCoords payloadEquator = none :=
  zero_coordinate_payload_skipped payloadEquator rfl rfl rfl (Or.inl rfl)

/-! Part 2: the proximity search engine of src/utils/geoUtils.ts
(calculateDistance, sortMerchantsByDistance) and its caller
loadStoresInRadius / handleLoadMoreStores in src/pages/Index.tsx.
IEEE-754 double arithmetic is idealized by real arithmetic. -/

/-- JavaScript Math.atan2 over the reals: the angle of the point (x, y),
by case split on the quadrant.  calculateDistance only ever calls it with
both arguments nonnegative (they are square roots). -/
noncomputable def atan2 (y x : ℝ) : ℝ :=
  if 0 < x then Real.arctan (y / x)
  else if x = 0 then
    if 0 < y then Real.pi / 2
    else if y < 0 then -(Real.pi / 2)
    else 0
  else
    if 0 ≤ y then Real.arctan (y / x) + Real.pi
    else Real.arctan (y / x) - Real.pi

/-- The intermediate value `a` of calculateDistance: the haversine of the
central angle between the two points. -/
noncomputable def haversineA (lat1 lon1 lat2 lon2 : ℝ) : ℝ :=
  Real.sin ((lat2 - lat1) * Real.pi / 180 / 2) *
      Real.sin ((lat2 - lat1) * Real.pi / 180 / 2) +
    Real.cos (lat1 * Real.pi / 180) * Real.cos (lat2 * Real.pi / 180) *
      Real.sin ((lon2 - lon1) * Real.pi / 180 / 2) *
      Real.sin ((lon2 - lon1) * Real.pi / 180 / 2)

/-- calculateDistance (geoUtils.ts lines 370-387): haversine great-circle
distance in kilometres on a sphere of radius 6371 km, rounded to two
decimal places.  Math.round rounds half toward positive infinity, which
is Mathlib round. -/
noncomputable def calculateDistance (lat1 lon1 lat2 lon2 : ℝ) : ℝ :=
  let R : ℝ := 6371
  let dLat := (lat2 - lat1) * Real.pi / 180
  let dLon := (lon2 - lon1) * Real.pi / 180
  let a := Real.sin (dLat / 2) * Real.sin (dLat / 2) +
    Real.cos (lat1 * Real.pi / 180) * Real.cos (lat2 * Real.pi / 180) *
      Real.sin (dLon / 2) * Real.sin (dLon / 2)
  let c := 2 * atan2 (Real.sqrt a) (Real.sqrt (1 - a))
  let distance := R * c
  ((round (distance * 100) : ℤ) : ℝ) / 100

/-- calculateDistance written through haversineA. -/
theorem calculateDistance_eq (lat1 lon1 lat2 lon2 : ℝ) :
    calculateDistance lat1 lon1 lat2 lon2 =
      ((round (6371 *
          (2 * atan2 (Real.sqrt (haversineA lat1 lon1 lat2 lon2))
            (Real.sqrt (1 - haversineA lat1 lon1 lat2 lon2))) * 100) : ℤ) : ℝ) /
        100 := rfl

/-- The haversine term is symmetric in the two points. -/
theorem haversineA_comm (lat1 lon1 lat2 lon2 : ℝ) :
    haversineA lat2 lon2 lat1 lon1 = haversineA lat1 lon1 lat2 lon2 := by
  unfold haversineA
  rw [show (lat1 - lat2) * Real.pi / 180 / 2 =
        -((lat2 - lat1) * Real.pi / 180 / 2) by ring,
      show (lon1 - lon2) * Real.pi / 180 / 2 =
        -((lon2 - lon1) * Real.pi / 180 / 2) by ring,
      Real.sin_neg, Real.sin_neg]
  ring

/-- The haversine term vanishes on equal points. -/
theorem haversineA_self (lat lon : ℝ) : haversineA lat lon lat lon = 0 := by
  unfold haversineA
  simp

/-- atan2 at the point (1, 0) is 0. -/
theorem atan2_zero_one : atan2 0 1 = 0 := by
  unfold atan2
  rw [if_pos one_pos]
  simp

/-- atan2 of a nonnegative ordinate is nonnegative (the angle lies in the
closed upper half plane). -/
theorem atan2_nonneg (y x : ℝ) (hy : 0 ≤ y) : 0 ≤ atan2 y x := by
  unfold atan2
  have hπ := Real.pi_pos
  have harct := Real.neg_pi_div_two_lt_arctan (y / x)
  have harc0 : ∀ z : ℝ, 0 ≤ z → 0 ≤ Real.arctan z := fun z hz =>
    calc (0 : ℝ) = Real.arctan 0 := Real.arctan_zero.symm
    _ ≤ Real.arctan z := Real.arctan_strictMono.monotone hz
  split_ifs with h1 h2 h3 h4 h5 <;>
    first
      | exact harc0 _ (div_nonneg hy h1.le)
      | linarith

/-- The distance computed by calculateDistance is never negative. -/
theorem calculateDistance_nonneg (lat1 lon1 lat2 lon2 : ℝ) :
    0 ≤ calculateDistance lat1 lon1 lat2 lon2 := by
  rw [calculateDistance_eq]
  have h1 : 0 ≤ atan2 (Real.sqrt (haversineA lat1 lon1 lat2 lon2))
      (Real.sqrt (1 - haversineA lat1 lon1 lat2 lon2)) :=
    atan2_nonneg _ _ (Real.sqrt_nonneg _)
  have h2 : (0 : ℤ) ≤ round (6371 *
      (2 * atan2 (Real.sqrt (haversineA lat1 lon1 lat2 lon2))
        (Real.sqrt (1 - haversineA lat1 lon1 lat2 lon2))) * 100) := by
    rw [round_eq]
    apply Int.floor_nonneg.mpr
    nlinarith
  have h3 : (0 : ℝ) ≤ ((round (6371 *
      (2 * atan2 (Real.sqrt (haversineA lat1 lon1 lat2 lon2))
        (Real.sqrt (1 - haversineA lat1 lon1 lat2 lon2))) * 100) : ℤ) : ℝ) := by
    exact_mod_cast h2
  linarith

/-- The distance from a point to itself is exactly 0. -/
theorem calculateDistance_self (lat lon : ℝ) :
    calculateDistance lat lon lat lon = 0 := by
  rw [calculateDistance_eq, haversineA_self]
  rw [show (1 : ℝ) - 0 = 1 by ring, Real.sqrt_zero, Real.sqrt_one,
    atan2_zero_one]
  norm_num

/-- calculateDistance is symmetric in its two points. -/
theorem calculateDistance_comm (lat1 lon1 lat2 lon2 : ℝ) :
    calculateDistance lat1 lon1 lat2 lon2 =
      calculateDistance lat2 lon2 lat1 lon1 := by
  rw [calculateDistance_eq, calculateDistance_eq, haversineA_comm]

/-- Closed form of calculateDistance along the equator: for a longitude
difference of lon degrees, 0 ≤ lon < 180, the computed distance is the
arc length 6371 · lon · π / 180, rounded to two decimals. -/
theorem calculateDistance_equator (lon : ℝ) (h0 : 0 ≤ lon) (h1 : lon < 180) :
    calculateDistance 0 0 0 lon =
      ((round (6371 * (lon * Real.pi / 180) * 100) : ℤ) : ℝ) / 100 := by
  have hπ := Real.pi_pos
  set x := lon * Real.pi / 180 / 2 with hx
  have hx0 : 0 ≤ x := by
    rw [hx]
    positivity
  have hx2 : x < Real.pi / 2 := by
    have h2 : lon * Real.pi < 180 * Real.pi := mul_lt_mul_of_pos_right h1 hπ
    rw [hx]
    linarith
  have ha : haversineA 0 0 0 lon = Real.sin x * Real.sin x := by
    unfold haversineA
    have e1 : ((0 : ℝ) - 0) * Real.pi / 180 / 2 = 0 := by ring
    have e2 : (0 : ℝ) * Real.pi / 180 = 0 := by ring
    have e3 : (lon - 0) * Real.pi / 180 / 2 = x := by rw [hx]; ring
    rw [e1, e2, e3, Real.sin_zero, Real.cos_zero]
    ring
  have hsin : 0 ≤ Real.sin x :=
    Real.sin_nonneg_of_nonneg_of_le_pi hx0 (by linarith)
  have hcos : 0 < Real.cos x :=
    Real.cos_pos_of_mem_Ioo ⟨by linarith, hx2⟩
  have hs1 : Real.sqrt (Real.sin x * Real.sin x) = Real.sin x :=
    Real.sqrt_mul_self hsin
  have h1s : 1 - Real.sin x * Real.sin x = Real.cos x * Real.cos x := by
    have hpy := Real.sin_sq_add_cos_sq x
    rw [pow_two, pow_two] at hpy
    linarith
  have hs2 : Real.sqrt (Real.cos x * Real.cos x) = Real.cos x :=
    Real.sqrt_mul_self hcos.le
  have hat : atan2 (Real.sin x) (Real.cos x) = x := by
    unfold atan2
    rw [if_pos hcos, ← Real.tan_eq_sin_div_cos]
    exact Real.arctan_tan (by linarith) hx2
  rw [calculateDistance_eq, ha, hs1, h1s, hs2, hat]
  have hfin : 6371 * (2 * x) * 100 = 6371 * (lon * Real.pi / 180) * 100 := by
    rw [hx]; ring
  rw [hfin]


/-- MerchantRecord (src/types/merchant.ts): the static dataset entry.
The optional derived distance field of the TypeScript interface lives in
MerchantWithDistance. -/
structure Merchant where
  merchantId : String
  postalCode : String
  longitude : ℝ
  latitude : ℝ
  tradingName : String
  address1 : String
  address2 : String
  address3 : String
  country : String
  state : String
  city : String

/-- MerchantWithDistance (src/types/merchant.ts): a merchant together
with its computed distance in kilometres. -/
structure MerchantWithDistance extends Merchant where
  distance : ℝ

/-- The map step of sortMerchantsByDistance: spread the merchant and add
its distance from the user. -/
noncomputable def withDistance (userLat userLon : ℝ) (m : Merchant) :
    MerchantWithDistance :=
  ⟨m, calculateDistance userLat userLon m.latitude m.longitude⟩

/-- sortMerchantsByDistance (geoUtils.ts lines 392-405): annotate every
merchant with its distance from the user, keep those with distance at
most maxRadius, and sort ascending by distance.  Array.prototype.sort is
stable, modelled by List.mergeSort.  The source gives maxRadius a default
of 10 km; the model takes it explicitly. -/
noncomputable def sortMerchantsByDistance (merchants : List Merchant)
    (userLat userLon : ℝ) (maxRadius : ℝ) : List MerchantWithDistance :=
  List.mergeSort
    ((merchants.map (withDistance userLat userLon)).filter
      (fun m => decide (m.distance ≤ maxRadius)))
    (fun a b => decide (a.distance ≤ b.distance))

/-- loadStoresInRadius (src/pages/Index.tsx lines 177-187), its pure
content: the stores within the given radius, and the hasMoreStores flag,
set by comparing the result count at radius + 5 against the count at the
given radius. -/
noncomputable def loadStoresInRadius (merchantsData : List Merchant)
    (lat lng radius : ℝ) : List MerchantWithDistance × Bool :=
  let storesInRadius := sortMerchantsByDistance merchantsData lat lng radius
  let nextRadiusStores :=
    sortMerchantsByDistance merchantsData lat lng (radius + 5)
  (storesInRadius, decide (nextRadiusStores.length > storesInRadius.length))

/-- handleLoadMoreStores (src/pages/Index.tsx lines 285-300), its pure
content: load-more reruns loadStoresInRadius at currentRadius + 5. -/
noncomputable def handleLoadMoreStores (merchantsData : List Merchant)
    (lat lng currentRadius : ℝ) : List MerchantWithDistance × Bool :=
  loadStoresInRadius merchantsData lat lng (currentRadius + 5)

/-- The distance comparator of sortMerchantsByDistance is transitive. -/
theorem distLE_trans : ∀ a b c : MerchantWithDistance,
    decide (a.distance ≤ b.distance) = true →
    decide (b.distance ≤ c.distance) = true →
    decide (a.distance ≤ c.distance) = true := by
  intro a b c hab hbc
  rw [decide_eq_true_eq] at hab hbc ⊢
  exact le_trans hab hbc

/-- The distance comparator of sortMerchantsByDistance is total. -/
theorem distLE_total : ∀ a b : MerchantWithDistance,
    (decide (a.distance ≤ b.distance) ||
      decide (b.distance ≤ a.distance)) = true := by
  intro a b
  rcases le_total a.distance b.distance with h | h <;> simp [h]

/-- Membership in the search result: exactly the annotated merchants
whose distance is at most the radius. -/
theorem mem_sortMerchantsByDistance {x : MerchantWithDistance}
    {ms : List Merchant} {la lo r : ℝ} :
    x ∈ sortMerchantsByDistance ms la lo r ↔
      (∃ m ∈ ms, withDistance la lo m = x) ∧ x.distance ≤ r := by
  unfold sortMerchantsByDistance
  rw [List.mem_mergeSort, List.mem_filter]
  simp [List.mem_map]

/-- The search result is a permutation of the annotated, filtered
input. -/
theorem sortMerchantsByDistance_perm (ms : List Merchant) (la lo r : ℝ) :
    (sortMerchantsByDistance ms la lo r).Perm
      ((ms.map (withDistance la lo)).filter
        (fun m => decide (m.distance ≤ r))) :=
  List.mergeSort_perm _ _

/-- The search result is sorted ascending by distance. -/
theorem sortMerchantsByDistance_sorted (ms : List Merchant) (la lo r : ℝ) :
    (sortMerchantsByDistance ms la lo r).Pairwise
      (fun a b => a.distance ≤ b.distance) := by
  have h := List.sorted_mergeSort distLE_trans distLE_total
    ((ms.map (withDistance la lo)).filter (fun m => decide (m.distance ≤ r)))
  exact h.imp (fun hab => by
    rw [decide_eq_true_eq] at hab
    exact hab)

/-- Stability of the search result: restricted to any fixed distance
value, the sorted output lists the records in their input order. -/
theorem sortMerchantsByDistance_stable (ms : List Merchant)
    (la lo r d : ℝ) :
    (sortMerchantsByDistance ms la lo r).filter
        (fun x => decide (x.distance = d)) =
      ((ms.map (withDistance la lo)).filter
        (fun m => decide (m.distance ≤ r))).filter
        (fun x => decide (x.distance = d)) := by
  unfold sortMerchantsByDistance
  set l := (ms.map (withDistance la lo)).filter
    (fun m => decide (m.distance ≤ r)) with hl
  set p : MerchantWithDistance → Bool :=
    fun x => decide (x.distance = d) with hp
  set le : MerchantWithDistance → MerchantWithDistance → Bool :=
    fun a b => decide (a.distance ≤ b.distance) with hle
  have hmemp : ∀ a : MerchantWithDistance, p a = true → a.distance = d := by
    intro a hpa
    rw [hp] at hpa
    rw [decide_eq_true_eq] at hpa
    exact hpa
  have hpw : (l.filter p).Pairwise (fun a b => le a b = true) := by
    apply List.pairwise_of_forall_mem_list
    intro a ha b hb
    have ha2 : a.distance = d := hmemp a (List.mem_filter.mp ha).2
    have hb2 : b.distance = d := hmemp b (List.mem_filter.mp hb).2
    rw [hle]
    rw [decide_eq_true_eq, ha2, hb2]
  have h1 : List.Sublist (l.filter p) (List.mergeSort l le) :=
    List.sublist_mergeSort distLE_trans distLE_total hpw (List.filter_sublist l)
  have h2 : ((List.mergeSort l le).filter p).Perm (l.filter p) :=
    (List.mergeSort_perm l le).filter p
  have h3 : List.Sublist ((l.filter p).filter p)
      ((List.mergeSort l le).filter p) :=
    h1.filter p
  have h4 : (l.filter p).filter p = l.filter p :=
    List.filter_eq_self.mpr (fun a ha => (List.mem_filter.mp ha).2)
  rw [h4] at h3
  exact (h3.eq_of_length h2.length_eq.symm).symm

/-- The length of the search result equals the number of merchants within
the radius. -/
theorem sortMerchantsByDistance_length (ms : List Merchant) (la lo r : ℝ) :
    (sortMerchantsByDistance ms la lo r).length =
      ((ms.map (withDistance la lo)).filter
        (fun m => decide (m.distance ≤ r))).length := by
  unfold sortMerchantsByDistance
  exact List.length_mergeSort _

/-- A negative radius retains nothing, because every computed distance is
nonnegative. -/
theorem sortMerchantsByDistance_of_neg_radius (ms : List Merchant)
    (la lo r : ℝ) (hr : r < 0) : sortMerchantsByDistance ms la lo r = [] := by
  unfold sortMerchantsByDistance
  have hf : (ms.map (withDistance la lo)).filter
      (fun m => decide (m.distance ≤ r)) = [] := by
    rw [List.filter_eq_nil_iff]
    intro a ha
    rw [List.mem_map] at ha
    obtain ⟨m, hm, rfl⟩ := ha
    have hd := calculateDistance_nonneg la lo m.latitude m.longitude
    rw [Bool.not_eq_true, decide_eq_false_iff_not]
    show ¬ calculateDistance la lo m.latitude m.longitude ≤ r
    linarith
  rw [hf, List.mergeSort_nil]

/-- A merchant record placed exactly at the origin coordinate. -/
noncomputable def merchantOrigin : Merchant :=
  ⟨"m0", "50000", 0, 0, "Origin Store", "", "", "", "Malaysia", "WP Kuala Lumpur",
    "Kuala Lumpur"⟩

/-- A merchant one microdegree of longitude east of the origin: about
0.11 m away on the sphere, a strictly positive true distance. -/
noncomputable def merchantNearOrigin : Merchant :=
  ⟨"m1", "50000", 1 / 1000000, 0, "Near Origin Store", "", "", "", "Malaysia",
    "WP Kuala Lumpur", "Kuala Lumpur"⟩

/-- A merchant 0.03 degrees of longitude from the origin (3.34 km). -/
noncomputable def merchantNear : Merchant :=
  ⟨"mA", "50000", 3 / 100, 0, "Near Store", "", "", "", "Malaysia",
    "WP Kuala Lumpur", "Kuala Lumpur"⟩

/-- A merchant 0.11 degrees of longitude from the origin (12.23 km). -/
noncomputable def merchantFar : Merchant :=
  ⟨"mB", "50000", 11 / 100, 0, "Far Store", "", "", "", "Malaysia",
    "WP Kuala Lumpur", "Kuala Lumpur"⟩

/-- The two-decimal rounding of the one-microdegree equatorial arc is
exactly 0: the unrounded distance is about 0.000111 km. -/
theorem round_microdegree :
    round (6371 * ((1 / 1000000 : ℝ) * Real.pi / 180) * 100) = 0 := by
  have hl : (3.141592 : ℝ) < Real.pi := Real.pi_gt_d6
  have hu : Real.pi < 3.141593 := Real.pi_lt_d6
  rw [round_eq, Int.floor_eq_zero_iff, Set.mem_Ico]
  constructor <;> nlinarith

/-- The 0.03 degree equatorial arc rounds to 3.34 km. -/
theorem round_lon003 :
    round (6371 * ((3 / 100 : ℝ) * Real.pi / 180) * 100) = 334 := by
  have hl : (3.141592 : ℝ) < Real.pi := Real.pi_gt_d6
  have hu : Real.pi < 3.141593 := Real.pi_lt_d6
  rw [round_eq, Int.floor_eq_iff]
  push_cast
  constructor <;> nlinarith

/-- The 0.11 degree equatorial arc rounds to 12.23 km. -/
theorem round_lon011 :
    round (6371 * ((11 / 100 : ℝ) * Real.pi / 180) * 100) = 1223 := by
  have hl : (3.141592 : ℝ) < Real.pi := Real.pi_gt_d6
  have hu : Real.pi < 3.141593 := Real.pi_lt_d6
  rw [round_eq, Int.floor_eq_iff]
  push_cast
  constructor <;> nlinarith

/-- The computed distance to the one-microdegree merchant is exactly 0
after rounding, although the point is not coincident with the center. -/
theorem calculateDistance_microdegree :
    calculateDistance 0 0 0 (1 / 1000000 : ℝ) = 0 := by
  rw [calculateDistance_equator (1 / 1000000 : ℝ) (by norm_num) (by norm_num),
    round_microdegree]
  norm_num

/-- The computed distance annotated on merchantNear is 3.34 km. -/
theorem distance_merchantNear :
    (withDistance 0 0 merchantNear).distance = 334 / 100 := by
  show calculateDistance 0 0 0 (3 / 100 : ℝ) = 334 / 100
  rw [calculateDistance_equator (3 / 100 : ℝ) (by norm_num) (by norm_num),
    round_lon003]
  norm_num

/-- The computed distance annotated on merchantFar is 12.23 km. -/
theorem distance_merchantFar :
    (withDistance 0 0 merchantFar).distance = 1223 / 100 := by
  show calculateDistance 0 0 0 (11 / 100 : ℝ) = 1223 / 100
  rw [calculateDistance_equator (11 / 100 : ℝ) (by norm_num) (by norm_num),
    round_lon011]
  norm_num

/-- Claim C8: calculateDistance is symmetric in its two coordinate
arguments and identically zero on equal arguments. -/
theorem calculateDistance_symm_and_self :
    (∀ lat1 lon1 lat2 lon2 : ℝ,
        calculateDistance lat1 lon1 lat2 lon2 =
          calculateDistance lat2 lon2 lat1 lon1) ∧
      ∀ lat lon : ℝ, calculateDistance lat lon lat lon = 0 :=
  ⟨fun lat1 lon1 lat2 lon2 => calculateDistance_comm lat1 lon1 lat2 lon2,
    fun lat lon => calculateDistance_self lat lon⟩

/-- Claim C3: for every center, merchant list and radius at least 0, the
search returns exactly the annotated records with distance at most the
radius (a permutation of the filtered annotated input, so the inclusive
boundary holds), sorted ascending by distance, and stably: restricted to
any fixed distance value the output keeps the input order. -/
theorem sortMerchantsByDistance_spec (ms : List Merchant) (la lo r : ℝ)
    (hr : 0 ≤ r) :
    (sortMerchantsByDistance ms la lo r).Perm
        ((ms.map (withDistance la lo)).filter
          (fun m => decide (m.distance ≤ r))) ∧
      (sortMerchantsByDistance ms la lo r).Pairwise
        (fun a b => a.distance ≤ b.distance) ∧
      ∀ d : ℝ,
        (sortMerchantsByDistance ms la lo r).filter
            (fun x => decide (x.distance = d)) =
          ((ms.map (withDistance la lo)).filter
            (fun m => decide (m.distance ≤ r))).filter
            (fun x => decide (x.distance = d)) :=
  ⟨sortMerchantsByDistance_perm ms la lo r,
    sortMerchantsByDistance_sorted ms la lo r,
    fun d => sortMerchantsByDistance_stable ms la lo r d⟩

/-- Witness for sortMerchantsByDistance_spec at the one-merchant list and
radius 1. -/
theorem sortMerchantsByDistance_spec_witness :
    (0 : ℝ) ≤ 1 ∧
      ((sortMerchantsByDistance [merchantOrigin] 0 0 1).Perm
          (([merchantOrigin].map (withDistance 0 0)).filter
            (fun m => decide (m.distance ≤ 1))) ∧
        (sortMerchantsByDistance [merchantOrigin] 0 0 1).Pairwise
          (fun a b => a.distance ≤ b.distance) ∧
        ∀ d : ℝ,
          (sortMerchantsByDistance [merchantOrigin] 0 0 1).filter
              (fun x => decide (x.distance = d)) =
            (([merchantOrigin].map (withDistance 0 0)).filter
              (fun m => decide (m.distance ≤ 1))).filter
              (fun x => decide (x.distance = d))) :=
  ⟨zero_le_one, sortMerchantsByDistance_spec [merchantOrigin] 0 0 1 zero_le_one⟩

/-- Claim C7: enlarging the radius by any positive amount only adds
results; every record returned at radius r is returned at radius
r + dr. -/
theorem sortMerchantsByDistance_radius_mono (ms : List Merchant)
    (la lo r dr : ℝ) (hdr : 0 < dr) :
    ∀ x ∈ sortMerchantsByDistance ms la lo r,
      x ∈ sortMerchantsByDistance ms la lo (r + dr) := by
  intro x hx
  rw [mem_sortMerchantsByDistance] at hx ⊢
  exact ⟨hx.1, by linarith [hx.2]⟩

/-- Witness for sortMerchantsByDistance_radius_mono at radius 0 expanded
by 1. -/
theorem sortMerchantsByDistance_radius_mono_witness :
    (0 : ℝ) < 1 ∧
      ∀ x ∈ sortMerchantsByDistance [merchantOrigin] 0 0 0,
        x ∈ sortMerchantsByDistance [merchantOrigin] 0 0 (0 + 1) :=
  ⟨one_pos, sortMerchantsByDistance_radius_mono [merchantOrigin] 0 0 0 1 one_pos⟩

/-- Claim C4 counterexample: the call with the negative radius -1 is not
rejected with a validation error; it succeeds and silently returns the
empty list, although a merchant sits exactly at the center. -/
theorem negative_radius_silently_empty :
    sortMerchantsByDistance [merchantOrigin] 0 0 (-1) = [] ∧ (-1 : ℝ) < 0 :=
  ⟨sortMerchantsByDistance_of_neg_radius [merchantOrigin] 0 0 (-1)
      neg_one_lt_zero,
    neg_one_lt_zero⟩

/-- Claim C4 as amended: a negative radiusKm is not rejected; the search
raises no error and returns the empty list, because every computed
distance is nonnegative and the filter retains nothing. -/
theorem sortMerchantsByDistance_neg_radius (ms : List Merchant)
    (la lo r : ℝ) (hr : r < 0) : sortMerchantsByDistance ms la lo r = [] :=
  sortMerchantsByDistance_of_neg_radius ms la lo r hr

/-- Witness for sortMerchantsByDistance_neg_radius at radius -1 over the
empty dataset. -/
theorem sortMerchantsByDistance_neg_radius_witness :
    (-1 : ℝ) < 0 ∧ sortMerchantsByDistance [] 0 0 (-1) = [] :=
  ⟨neg_one_lt_zero,
    sortMerchantsByDistance_neg_radius [] 0 0 (-1) neg_one_lt_zero⟩

/-- Claim C5 counterexample: with radius 0, the search over a merchant
one microdegree of longitude from the center (a strictly positive true
distance, about 0.11 m) still returns that merchant, because its distance
rounds to 0.00; so radius 0 does not return only exactly coincident
points. -/
theorem radius_zero_includes_noncoincident :
    withDistance 0 0 merchantNearOrigin ∈
        sortMerchantsByDistance [merchantNearOrigin] 0 0 0 ∧
      (withDistance 0 0 merchantNearOrigin).longitude ≠ 0 := by
  constructor
  · rw [mem_sortMerchantsByDistance]
    refine ⟨⟨merchantNearOrigin, List.mem_singleton_self _, rfl⟩, ?_⟩
    have hd : (withDistance 0 0 merchantNearOrigin).distance =
        calculateDistance 0 0 0 (1 / 1000000 : ℝ) := rfl
    rw [hd, calculateDistance_microdegree]
  · have hlon : (withDistance 0 0 merchantNearOrigin).longitude =
        (1 / 1000000 : ℝ) := rfl
    rw [hlon]
    norm_num

/-- Claim C5 as amended: with radius 0 the search returns exactly the
records whose two-decimal rounded distance is 0 — every record within
about five metres of the center — not only records exactly coincident
with it. -/
theorem mem_sortMerchantsByDistance_radius_zero (x : MerchantWithDistance)
    (ms : List Merchant) (la lo : ℝ) :
    x ∈ sortMerchantsByDistance ms la lo 0 ↔
      (∃ m ∈ ms, withDistance la lo m = x) ∧ x.distance = 0 := by
  rw [mem_sortMerchantsByDistance]
  constructor
  · rintro ⟨⟨m, hm, hx⟩, hle⟩
    have h0 : 0 ≤ x.distance := by
      rw [← hx]
      exact calculateDistance_nonneg la lo m.latitude m.longitude
    exact ⟨⟨m, hm, hx⟩, le_antisymm hle h0⟩
  · rintro ⟨hm, heq⟩
    exact ⟨hm, le_of_eq heq⟩

/-- Claim C9 as amended: load-more recomputes the search at
currentRadius + 5 (the step is fixed at 5 km), and its hasMore flag is
true exactly when the search one further 5 km step out — at
currentRadius + 10 — yields strictly more results than the search at the
new radius currentRadius + 5.  It does not compare the new radius against
the current one. -/
theorem handleLoadMoreStores_spec (ms : List Merchant) (lat lng r : ℝ) :
    (handleLoadMoreStores ms lat lng r).1 =
        sortMerchantsByDistance ms lat lng (r + 5) ∧
      ((handleLoadMoreStores ms lat lng r).2 = true ↔
        (sortMerchantsByDistance ms lat lng (r + 5)).length <
          (sortMerchantsByDistance ms lat lng (r + 10)).length) := by
  constructor
  · rfl
  · show decide ((sortMerchantsByDistance ms lat lng (r + 5 + 5)).length >
        (sortMerchantsByDistance ms lat lng (r + 5)).length) = true ↔ _
    rw [decide_eq_true_eq]
    have h : r + 5 + 5 = r + 10 := by ring
    rw [h]

/-- The search over the two test merchants keeps exactly one store at
radius 5 (only the 3.34 km store). -/
theorem length_lon_pair_radius5 :
    (sortMerchantsByDistance [merchantNear, merchantFar] 0 0 5).length = 1 := by
  rw [sortMerchantsByDistance_length]
  simp only [List.map_cons, List.map_nil, List.filter_cons, List.filter_nil,
    distance_merchantNear, distance_merchantFar, decide_eq_true_eq]
  rw [if_pos (by norm_num : (334 : ℝ) / 100 ≤ 5),
    if_neg (by norm_num : ¬ (1223 : ℝ) / 100 ≤ 5)]
  rfl

/-- The search over the two test merchants still keeps exactly one store
at radius 10 (12.23 km is outside). -/
theorem length_lon_pair_radius10 :
    (sortMerchantsByDistance [merchantNear, merchantFar] 0 0 (5 + 5)).length
      = 1 := by
  rw [sortMerchantsByDistance_length]
  simp only [List.map_cons, List.map_nil, List.filter_cons, List.filter_nil,
    distance_merchantNear, distance_merchantFar, decide_eq_true_eq]
  rw [if_pos (by norm_num : (334 : ℝ) / 100 ≤ 5 + 5),
    if_neg (by norm_num : ¬ (1223 : ℝ) / 100 ≤ 5 + 5)]
  rfl

/-- The search over the two test merchants keeps both stores at
radius 15. -/
theorem length_lon_pair_radius15 :
    (sortMerchantsByDistance [merchantNear, merchantFar] 0 0 (5 + 5 + 5)).length
      = 2 := by
  rw [sortMerchantsByDistance_length]
  simp only [List.map_cons, List.map_nil, List.filter_cons, List.filter_nil,
    distance_merchantNear, distance_merchantFar, decide_eq_true_eq]
  rw [if_pos (by norm_num : (334 : ℝ) / 100 ≤ 5 + 5 + 5),
    if_pos (by norm_num : (1223 : ℝ) / 100 ≤ 5 + 5 + 5)]
  rfl

/-- Claim C9 counterexample: with stores 3.34 km and 12.23 km away and
current radius 5, load-more (new radius 10) yields exactly as many
results as radius 5 — the larger radius does not yield strictly more
results than the current one — yet the hasMore flag is true, because the
code compares radius 15 against radius 10 instead. -/
theorem handleLoadMoreStores_hasMore_mismatch :
    (handleLoadMoreStores [merchantNear, merchantFar] 0 0 5).2 = true ∧
      (sortMerchantsByDistance [merchantNear, merchantFar] 0 0 (5 + 5)).length =
        (sortMerchantsByDistance [merchantNear, merchantFar] 0 0 5).length := by
  constructor
  · show decide
        ((sortMerchantsByDistance [merchantNear, merchantFar] 0 0
            (5 + 5 + 5)).length >
          (sortMerchantsByDistance [merchantNear, merchantFar] 0 0
            (5 + 5)).length) = true
    rw [length_lon_pair_radius15, length_lon_pair_radius10]
    decide
  · rw [length_lon_pair_radius10, length_lon_pair_radius5]

end KasihMap
